import Mathlib

/-!  A shallow embedding of the TravelBuddi travel-planning pipeline
(`streamlit_app.py`): text normalization, destination-region inference,
offline checklist assembly with deduplication, optional place-search
enrichment with its failure policy, request validation and export, together
with proofs about the specification's claims.

Python `dict`s (insertion-ordered) are modelled as association lists,
`datetime.date` as a day ordinal (the program uses dates only through
comparison and day subtraction), and the network as an oracle from requests
to responses.  -/

namespace TravelBuddi

/-! ## Python-style string utilities -/

/-- The whitespace characters of Python `str.split` / `str.strip`. -/
def pyIsSpace (c : Char) : Bool :=
  c = ' ' || c = '\t' || c = '\n' || c = '\r' || c = '\x0b' || c = '\x0c'

/-- Python `str.strip()`. -/
def pyStrip (s : String) : String :=
  String.mk (((s.data.dropWhile pyIsSpace).reverse.dropWhile pyIsSpace).reverse)

/-- Python `str.lower()` (ASCII letters; the program's tables are ASCII). -/
def pyLower (s : String) : String :=
  String.mk (s.data.map Char.toLower)

/-- Worker for Python `str.split()` with no separator: cut at whitespace
runs, dropping empty words. -/
def pySplitAux (acc : List Char) : List Char → List (List Char)
  | [] => if acc.isEmpty then [] else [acc.reverse]
  | c :: cs =>
    if pyIsSpace c then
      if acc.isEmpty then pySplitAux [] cs else acc.reverse :: pySplitAux [] cs
    else pySplitAux (c :: acc) cs

/-- Python `str.split()` with no separator. -/
def pySplit (s : String) : List String :=
  (pySplitAux [] s.data).map String.mk

/-- `normalize_text`: `" ".join(s.strip().lower().split())`. -/
def normalize_text (s : String) : String :=
  " ".intercalate (pySplit (pyLower (pyStrip s)))

/-- `startsWith n h`: `n` is a leading run of `h`. -/
def startsWith : List Char → List Char → Bool
  | [], _ => true
  | _ :: _, [] => false
  | a :: n, b :: h => a == b && startsWith n h

/-- `containsSub n h`: `n` occurs contiguously inside `h`. -/
def containsSub (n : List Char) : List Char → Bool
  | [] => n.isEmpty
  | c :: t => startsWith n (c :: t) || containsSub n t

/-- Python `needle in hay` on strings. -/
def strIn (needle hay : String) : Bool :=
  containsSub needle.data hay.data

/-! ## Insertion-ordered dictionaries as association lists -/

/-- First-match lookup in an association list (Python `dict` access). -/
def alGet {α : Type} : List (String × α) → String → Option α
  | [], _ => none
  | (k, v) :: m, key => if k = key then some v else alGet m key

/-- `d.setdefault(k, []).extend(v)`: extend the entry in place when the key
is present, otherwise append a new entry at the end. -/
def upsertExtend {α : Type} (m : List (String × List α)) (k : String)
    (v : List α) : List (String × List α) :=
  if (alGet m k).isSome then
    m.map (fun kv => if kv.1 = k then (kv.1, kv.2 ++ v) else kv)
  else m ++ [(k, v)]

/-- `for k, v in other.items(): d.setdefault(k, []).extend(v)`. -/
def extendAll {α : Type} (m other : List (String × List α)) :
    List (String × List α) :=
  other.foldl (fun acc kv => upsertExtend acc kv.1 kv.2) m

/-! ## Data model -/

/-- Days since an epoch: the shallow model of `datetime.date`, which the
program uses only through comparison and day subtraction. -/
abbrev Date := Int

inductive TripStyle
  | budget | midRange | luxury
  deriving DecidableEq

inductive LuggageType
  | backpack | carryOnOnly | checkedBag
  deriving DecidableEq

inductive WeatherFeel
  | cold | mild | hot
  deriving DecidableEq

inductive Accommodation
  | hotel | hostel | airbnbApartment | resort | visitingFriendsFamily | otherAcc
  deriving DecidableEq

inductive Activity
  | cityExploring | business | beach | hiking | skiSnow | nightlife
  | museumsArt | foodTour | themeParks | roadTrip | camping | waterSports
  deriving DecidableEq

inductive Provider
  | offline | openTripMap | googlePlaces
  deriving DecidableEq

/-- The string value of the `TripStyle` literal. -/
def tripStyleStr : TripStyle → String
  | .budget => "Budget"
  | .midRange => "Mid-range"
  | .luxury => "Luxury"

def luggageStr : LuggageType → String
  | .backpack => "Backpack"
  | .carryOnOnly => "Carry-on only"
  | .checkedBag => "Checked bag"

def weatherStr : WeatherFeel → String
  | .cold => "Cold"
  | .mild => "Mild"
  | .hot => "Hot"

def accommodationStr : Accommodation → String
  | .hotel => "Hotel"
  | .hostel => "Hostel"
  | .airbnbApartment => "Airbnb/Apartment"
  | .resort => "Resort"
  | .visitingFriendsFamily => "Visiting friends/family"
  | .otherAcc => "Other"

def activityStr : Activity → String
  | .cityExploring => "City exploring"
  | .business => "Business"
  | .beach => "Beach"
  | .hiking => "Hiking"
  | .skiSnow => "Ski/Snow"
  | .nightlife => "Nightlife"
  | .museumsArt => "Museums/Art"
  | .foodTour => "Food tour"
  | .themeParks => "Theme parks"
  | .roadTrip => "Road trip"
  | .camping => "Camping"
  | .waterSports => "Water sports"

structure TravelInput where
  departure : String
  destination : String
  start_date : Date
  end_date : Date
  travelers : Int
  trip_style : TripStyle
  accommodation : Accommodation
  luggage : LuggageType
  weather : WeatherFeel
  rain_likelihood : Int
  activities : List Activity
  dietary_notes : String
  mobility_notes : String
  health_notes : String
  budget_notes : String
  deriving DecidableEq

structure ChecklistItem where
  item : String
  why : String
  tags : List String
  deriving DecidableEq

structure PlaceSuggestion where
  name : String
  address : String
  url : String
  rating : Option Rat
  rating_count : Option Int
  category : String
  deriving DecidableEq

structure GeneratedPlan where
  packing : List (String × List ChecklistItem)
  health : List (String × List ChecklistItem)
  places : List (String × List String)
  transport : List (String × List String)
  food : List (String × List String)
  enriched : List (String × List PlaceSuggestion)
  reminders : List String
  deriving DecidableEq

/-! ## Small internal datasets -/

def RIDE_HAILING_BY_REGION : List (String × List String) :=
  [("uk_ie", ["Uber (varies by city)", "Bolt (some cities)", "Free Now (some cities)", "Local licensed minicabs"]),
   ("eu", ["Bolt (many cities)", "Uber (many cities)", "Free Now (some cities)", "Licensed taxi ranks"]),
   ("us_canada", ["Uber", "Lyft", "Airport shuttles", "Licensed taxis"]),
   ("latam", ["Uber (some cities)", "DiDi (some cities)", "Cabify (some cities)", "Use official taxi apps where available"]),
   ("mena", ["Careem (some cities)", "Uber (some cities)", "Official airport taxis", "Hotel-arranged transfers"]),
   ("south_asia", ["Uber (some cities)", "Ola (some cities)", "Official prepaid taxi counters (airports)", "Hotel transfers"]),
   ("se_asia", ["Grab (many countries)", "Gojek (some countries)", "Official airport taxis", "Metered taxis where common"]),
   ("east_asia", ["Official taxi services", "Public transport apps", "Some cities: Uber (limited)", "Hotel-arranged cars"]),
   ("oceania", ["Uber", "Local taxi companies", "Airport shuttles", "Public transit cards/passes"]),
   ("unknown", ["Official airport taxi", "Hotel-arranged transfer", "Licensed taxi ranks", "Reputable local ride-hailing app"])]

def FOOD_STARTERS_BY_COUNTRY : List (String × List String) :=
  [("japan", ["Ramen", "Sushi", "Okonomiyaki", "Tempura", "Kaiseki (if splurging)"]),
   ("italy", ["Regional pasta specialty", "Pizza (local style)", "Gelato", "Aperitivo snacks", "Espresso + pastry"]),
   ("mexico", ["Tacos (regional)", "Mole (where common)", "Pozole", "Tamales", "Street elote/esquites"]),
   ("thailand", ["Pad kra pao", "Som tam", "Tom yum", "Khao soi (north)", "Mango sticky rice"]),
   ("france", ["Boulangerie bread/pastries", "Cheese plate", "Regional stew/specialty", "Crêpes (if common)", "Local wine (optional)"]),
   ("india", ["Regional thali", "Chaat", "Dosa (south)", "Biryani (where famous)", "Masala chai"]),
   ("spain", ["Tapas crawl", "Paella (where typical)", "Jamón", "Tortilla española", "Churros con chocolate"]),
   ("vietnam", ["Phở", "Bánh mì", "Bún chả", "Gỏi cuốn (fresh rolls)", "Cà phê sữa đá"]),
   ("greece", ["Souvlaki/gyros", "Greek salad", "Seafood (coast/islands)", "Moussaka", "Baklava"])]

/-! ## Utility functions of the program -/

def clamp (n lo hi : Int) : Int := max lo (min hi n)

def trip_length_days (startD endD : Date) : Int :=
  max 1 ((endD - startD) + 1)

/-- `uniq_items`'s loop, with the Python `set` of seen keys as a list. -/
def uniqAux (seen : List String) : List ChecklistItem → List ChecklistItem
  | [] => []
  | it :: rest =>
    if normalize_text it.item ∈ seen then uniqAux seen rest
    else it :: uniqAux (normalize_text it.item :: seen) rest

def uniq_items (items : List ChecklistItem) : List ChecklistItem :=
  uniqAux [] items

/-- `any(k in d for k in keys)`. -/
def anyIn (keys : List String) (d : String) : Bool :=
  keys.any (fun k => strIn k d)

def infer_region (destination : String) : String :=
  let d := normalize_text destination
  if anyIn ["uk", "united kingdom", "england", "scotland", "wales", "northern ireland", "ireland", "dublin", "london"] d then "uk_ie"
  else if anyIn ["france", "germany", "italy", "spain", "portugal", "netherlands", "belgium", "austria", "switzerland", "sweden", "norway", "denmark", "finland", "poland", "czech", "hungary", "greece", "croatia", "romania"] d then "eu"
  else if anyIn ["united states", "usa", "new york", "los angeles", "san francisco", "canada", "toronto", "vancouver", "montreal"] d then "us_canada"
  else if anyIn ["mexico", "brazil", "argentina", "chile", "colombia", "peru", "costa rica"] d then "latam"
  else if anyIn ["uae", "dubai", "abu dhabi", "qatar", "doha", "saudi", "riyadh", "jeddah", "egypt", "cairo", "morocco", "marrakesh"] d then "mena"
  else if anyIn ["india", "delhi", "mumbai", "bangalore", "pakistan", "lahore", "karachi", "bangladesh", "dhaka", "nepal", "kathmandu", "sri lanka", "colombo"] d then "south_asia"
  else if anyIn ["thailand", "bangkok", "vietnam", "hanoi", "ho chi minh", "philippines", "manila", "indonesia", "jakarta", "bali", "malaysia", "kuala lumpur", "singapore"] d then "se_asia"
  else if anyIn ["japan", "tokyo", "osaka", "kyoto", "china", "beijing", "shanghai", "hong kong", "taiwan", "taipei", "korea", "seoul"] d then "east_asia"
  else if anyIn ["australia", "sydney", "melbourne", "new zealand", "auckland", "wellington"] d then "oceania"
  else "unknown"

def extract_country_key (destination : String) : Option String :=
  let d := normalize_text destination
  (FOOD_STARTERS_BY_COUNTRY.map Prod.fst).find? (fun country => strIn country d)

/-! ## Core generators (offline baseline) -/

def base_packing : List (String × List ChecklistItem) :=
  [("Documents & money",
    [⟨"Passport/ID", "Core ID for travel, hotels, and emergencies", ["docs"]⟩,
     ⟨"Travel insurance details", "Helps with medical issues, delays, and lost items", ["docs", "health"]⟩,
     ⟨"Payment cards + some cash", "Backup when terminals fail or tips are cash-based", ["money"]⟩,
     ⟨"Copies of key docs (digital + paper)", "Recovery if originals are lost", ["docs"]⟩]),
   ("Tech",
    [⟨"Phone + charger", "Navigation, tickets, communication", ["tech"]⟩,
     ⟨"Power adapter (if needed)", "Sockets differ by country/region", ["tech"]⟩,
     ⟨"Power bank", "Long days out; helps with maps and photos", ["tech"]⟩,
     ⟨"Headphones", "Flights, commutes, calls", ["tech"]⟩]),
   ("Toiletries",
    [⟨"Toothbrush/toothpaste", "Basics", ["toiletries"]⟩,
     ⟨"Deodorant", "Basics", ["toiletries"]⟩,
     ⟨"Sunscreen", "Sun exposure even in cities", ["toiletries", "health"]⟩,
     ⟨"Hand sanitizer", "Useful in transit", ["toiletries", "health"]⟩]),
   ("Clothing (base)",
    [⟨"Underwear/socks", "Comfort and hygiene", ["clothes"]⟩,
     ⟨"Everyday outfit(s)", "Mix-and-match layers", ["clothes"]⟩,
     ⟨"Sleepwear", "Comfort", ["clothes"]⟩]),
   ("Safety & misc",
    [⟨"Reusable water bottle", "Hydration + savings", ["misc", "health"]⟩,
     ⟨"Small day bag", "Day trips, museums, markets", ["misc"]⟩,
     ⟨"Small lock (optional)", "Hostels/shared storage", ["safety"]⟩])]

/-- The single value of `weather_module`'s one-key dictionary: the base
entries of the selected weather feel, extended by the rain add-ons when the
rain likelihood reaches 60. -/
def weather_addons (weather : WeatherFeel) (rain : Int) : List ChecklistItem :=
  let base : List ChecklistItem :=
    match weather with
    | .cold =>
      [⟨"Warm jacket", "Core warmth layer", ["weather", "cold"]⟩,
       ⟨"Thermal base layer", "Warmth without bulk", ["weather", "cold"]⟩,
       ⟨"Gloves + beanie", "Extremities lose heat fast", ["weather", "cold"]⟩]
    | .hot =>
      [⟨"Breathable tops", "Heat comfort", ["weather", "hot"]⟩,
       ⟨"Hat/cap", "Sun protection", ["weather", "hot"]⟩,
       ⟨"Lightweight sandals (optional)", "Heat-friendly footwear", ["weather", "hot"]⟩]
    | .mild =>
      [⟨"Light jacket", "Evenings can be cooler", ["weather", "mild"]⟩,
       ⟨"Layering top", "Flexible comfort", ["weather", "mild"]⟩]
  if rain ≥ 60 then
    base ++
    [⟨"Compact umbrella", "Quick rain coverage", ["weather", "rain"]⟩,
     ⟨"Light rain jacket", "Hands-free rain protection", ["weather", "rain"]⟩,
     ⟨"Water-resistant shoes (optional)", "Avoid soaked feet on long days", ["weather", "rain"]⟩]
  else base

def weather_module (weather : WeatherFeel) (rain : Int) :
    List (String × List ChecklistItem) :=
  [("Weather add-ons", weather_addons weather rain)]

def activity_modules (activities : List Activity) (trip_days : Int)
    (trip_style : TripStyle) : List (String × List ChecklistItem) :=
  let adds : List ChecklistItem :=
    (if Activity.business ∈ activities then
      [⟨"Business outfit", "Meetings/dinners", ["activity", "business"]⟩,
       ⟨"Portable steamer (optional)", "Keep clothes crisp if you care", ["activity", "business"]⟩]
     else []) ++
    (if Activity.hiking ∈ activities then
      [⟨"Comfortable walking/hiking shoes", "Injury prevention + comfort", ["activity", "hiking"]⟩,
       ⟨"Lightweight rain/wind layer", "Weather changes fast outdoors", ["activity", "hiking"]⟩,
       ⟨"Blister care (plasters/moleskin)", "Stops small pain becoming a problem", ["activity", "hiking", "health"]⟩]
     else []) ++
    (if Activity.beach ∈ activities ∨ Activity.waterSports ∈ activities then
      [⟨"Swimwear", "Beach/pool", ["activity", "beach"]⟩,
       ⟨"Quick-dry towel (optional)", "Convenient on day trips", ["activity", "beach"]⟩,
       ⟨"Waterproof phone pouch (optional)", "Protects phone near water", ["activity", "beach", "tech"]⟩]
     else []) ++
    (if Activity.skiSnow ∈ activities then
      [⟨"Ski socks", "Warmth + fit", ["activity", "snow"]⟩,
       ⟨"Neck gaiter/buff", "Wind protection", ["activity", "snow"]⟩,
       ⟨"Goggles (if not renting)", "Eye protection in snow glare", ["activity", "snow"]⟩]
     else []) ++
    (if Activity.nightlife ∈ activities then
      [⟨"One nicer outfit", "Dress codes vary", ["activity", "nightlife"]⟩,
       ⟨"Small crossbody/secure wallet", "Crowded areas", ["activity", "nightlife", "safety"]⟩]
     else []) ++
    (if Activity.roadTrip ∈ activities then
      [⟨"Phone mount (optional)", "Safer navigation", ["activity", "roadtrip"]⟩,
       ⟨"Offline maps downloaded", "Coverage gaps happen", ["activity", "roadtrip", "tech"]⟩]
     else []) ++
    (if Activity.camping ∈ activities then
      [⟨"Headlamp", "Hands-free light", ["activity", "camping"]⟩,
       ⟨"Light first-aid kit", "Remote areas", ["activity", "camping", "health"]⟩]
     else []) ++
    (if trip_days ≥ 7 ∧ trip_style ≠ .luxury then
      [⟨"Laundry kit (small detergent sheets)", "Light packing for longer trips", ["misc"]⟩]
     else [])
  [("Activity add-ons", adds)]

/-- The `region_prompts` table inside `health_checklist`. -/
def region_prompts : List (String × List ChecklistItem) :=
  [("se_asia",
    [⟨"Ask a clinician about mosquito-borne illness prevention", "Repellent + behavior planning", ["health"]⟩,
     ⟨"Food/water hygiene plan", "Reduce stomach issues", ["health"]⟩]),
   ("south_asia",
    [⟨"Ask a clinician about stomach illness prevention", "Hygiene and contingency meds", ["health"]⟩,
     ⟨"Heat and hydration strategy", "High temps can be risky", ["health"]⟩]),
   ("latam",
    [⟨"Ask a clinician about mosquito-borne illness prevention", "Repellent + clothing", ["health"]⟩,
     ⟨"Altitude planning (if relevant)", "Some areas require acclimatization", ["health"]⟩]),
   ("mena",
    [⟨"Heat and sun plan", "Hydration + shade + sunscreen", ["health"]⟩]),
   ("unknown",
    [⟨"If unsure, consult a travel clinic 4–8 weeks before travel", "Some vaccines need time/boosters", ["health"]⟩])]

def health_checklist (region : String) : List (String × List ChecklistItem) :=
  [("Health & vaccines (checklist)",
    [⟨"Check official travel health advice for your destination", "Guidance changes; use official sources", ["health"]⟩,
     ⟨"Confirm routine vaccines are up to date", "Baseline protection", ["health"]⟩,
     ⟨"Carry personal meds in original packaging", "Helps at borders and in emergencies", ["health"]⟩,
     ⟨"Consider a basic first-aid kit", "Blisters, minor cuts, headaches", ["health"]⟩,
     ⟨"Verify if proof of vaccination is required for entry/transit", "Some routes have requirements", ["health", "docs"]⟩]),
   ("Destination prompts (verify with clinician)", (alGet region_prompts region).getD [])]

def places_to_visit (activities : List Activity) (destination : String) :
    List (String × List String) :=
  let d := pyStrip destination
  let ideas :=
    (if Activity.museumsArt ∈ activities then
      ["One flagship museum + one small gallery.", "Check late-night openings/free entry windows."] else []) ++
    (if Activity.foodTour ∈ activities then
      ["Market visit early in the trip.", "Street-food area with high turnover + visible cooking."] else []) ++
    (if Activity.hiking ∈ activities then
      ["Half-day hike first; then full-day route.", "Download offline trail maps; check daylight hours."] else []) ++
    (if Activity.beach ∈ activities then
      ["One calm beach (morning) + one lively beach (afternoon).", "Pick a sunset spot."] else []) ++
    (if Activity.themeParks ∈ activities then
      ["Buy timed-entry tickets early if needed.", "Arrive before opening for first rides."] else [])
  let ideasFinal :=
    if ideas.isEmpty then
      ["Each day: 1 landmark, 1 local experience, 1 nature break (park/river)."]
    else ideas
  [("Ideas based on your interests", ideasFinal),
   ("Easy wins anywhere",
    ["Do a walking tour on day 1 (fast orientation).",
     "Pick one neighborhood to wander with no agenda.",
     "Bookmark 2–3 indoor options for bad weather."]),
   ("Destination prompts",
    ["Search: “best neighborhoods in " ++ d ++ "” and save 2–3 to explore.",
     "Search: “day trips from " ++ d ++ "” and pick one that matches your pace.",
     "Search: “local events in " ++ d ++ " during your dates”."])]

def transport_guide (region destination : String) : List (String × List String) :=
  let region_apps :=
    (alGet RIDE_HAILING_BY_REGION region).getD
      ((alGet RIDE_HAILING_BY_REGION "unknown").getD [])
  let d := pyStrip destination
  [("Taxi / ride options", region_apps),
   ("Safety checklist",
    ["Prefer official taxi ranks or app-dispatched rides.",
     "If street taxis: confirm meter or agree price before starting.",
     "Share trip details; sit in back if solo.",
     "At airports: use official/prepaid counters or hotel transfers."]),
   ("Destination prompts",
    ["Search: “official taxi number in " ++ d ++ "” and save it.",
     "Search: “airport to city center transport " ++ d ++ "” (compare train/bus/taxi).",
     "Download the local public transit app."])]

def food_guide (destination dietary_notes : String) : List (String × List String) :=
  let key := extract_country_key destination
  let starter := (alGet FOOD_STARTERS_BY_COUNTRY (key.getD "")).getD []
  let prompts :=
    ["Ask locals: “What’s the one dish this city does best?”",
     "Try: one market meal, one street snack, one sit-down specialty."] ++
    (if pyStrip dietary_notes ≠ "" then ["Diet note: " ++ pyStrip dietary_notes] else [])
  if starter.isEmpty then
    [("Local foods (starter list)",
      ["Signature stew/soup of the region",
       "Famous street-food item",
       "Local dessert/pastry",
       "Common breakfast item",
       "Seasonal specialty (ask what’s best right now)"]),
     ("Food game plan", prompts)]
  else
    [("Local foods (starter list)", starter), ("Food game plan", prompts)]

/-- The packing dictionary as `generate_plan` assembles it, before the
per-category deduplication loop. -/
def rawPacking (inp : TravelInput) : List (String × List ChecklistItem) :=
  let days := trip_length_days inp.start_date inp.end_date
  let p1 := extendAll base_packing (weather_module inp.weather inp.rain_likelihood)
  let p2 := extendAll p1 (activity_modules inp.activities days inp.trip_style)
  let p3 :=
    if inp.luggage = .carryOnOnly then
      upsertExtend p2 "Carry-on strategy"
        [⟨"Solid toiletries (or <100ml liquids)", "Avoid liquid limits issues", ["luggage"]⟩,
         ⟨"Wear bulkiest shoes on travel day", "Saves bag space", ["luggage"]⟩,
         ⟨"One versatile jacket", "Reduces overpacking", ["luggage"]⟩]
    else p2
  if pyStrip inp.mobility_notes ≠ "" then
    upsertExtend p3 "Accessibility"
      [⟨"Any mobility aids / supports you rely on", "Consistency and comfort", ["accessibility"]⟩]
  else p3

def generate_plan (inp : TravelInput) : GeneratedPlan :=
  let region := infer_region inp.destination
  { packing := (rawPacking inp).map (fun kv => (kv.1, uniq_items kv.2))
    health := health_checklist region
    places := places_to_visit inp.activities inp.destination
    transport := transport_guide region inp.destination
    food := food_guide inp.destination inp.dietary_notes
    enriched := []
    reminders :=
      ["Download offline maps + save key addresses (hotel, embassy, venues).",
       "Set up roaming/eSIM plan before departure.",
       "Enable contactless payments; consider notifying your bank.",
       "Save local emergency number + key contacts."] }

/-! ## API enrichment, modelled over a network oracle -/

/-- A parsed JSON document (numbers keep Python's int/float split, which
`isinstance` checks in the response mappers rely on). -/
inductive Json
  | null
  | str (s : String)
  | int (n : Int)
  | float (q : Rat)
  | bool (b : Bool)
  | arr (xs : List Json)
  | obj (kvs : List (String × Json))

/-- Python `d.get(k)` on a parsed JSON object (`None` when absent). -/
def jGet : Json → String → Option Json
  | .obj kvs, k => alGet kvs k
  | _, _ => none

/-- Python truthiness of a JSON value. -/
def jTruthy : Json → Bool
  | .null => false
  | .str s => s != ""
  | .int n => n != 0
  | .float q => q != 0
  | .bool b => b
  | .arr xs => !xs.isEmpty
  | .obj kvs => !kvs.isEmpty

/-- Python `str(...)` of a JSON value (container reprs abbreviated; the
program only ever stringifies scalars here). -/
def pyStr : Json → String
  | .null => "None"
  | .str s => s
  | .int n => toString n
  | .float q => toString q
  | .bool b => if b then "True" else "False"
  | .arr _ => "[...]"
  | .obj _ => "\x7b...\x7d"

/-- `str(d.get(k))`: a missing key renders as `str(None) = "None"`. -/
def pyStrOpt : Option Json → String
  | some j => pyStr j
  | none => "None"

/-- Python `a or b` on strings (the empty string is falsy). -/
def strOr (a b : String) : String := if a = "" then b else a

/-- `str(v or fallback)` for an optional JSON value. -/
def jGetOrStr (v : Option Json) (fallback : String) : String :=
  match v with
  | some j => if jTruthy j then pyStr j else fallback
  | none => fallback

/-- `_safe_get_text_field`: Google sometimes returns `displayName` as
`{"text": "..."}`. -/
def safe_get_text_field : Option Json → String
  | some (.str s) => s
  | some (.obj kvs) =>
    match alGet kvs "text" with
    | some (.str s) => s
    | _ => ""
  | _ => ""

/-- A value passed as an HTTP query parameter. -/
inductive ParamV
  | s (v : String)
  | i (n : Int)
  | f (q : Rat)

/-- One HTTP call exactly as `_http_json` issues it. -/
structure Request where
  method : String
  url : String
  headers : List (String × String)
  params : List (String × ParamV)
  body : Option Json

/-- What the network returns for one call: a parsed JSON document, a
transport error (`requests.RequestException`), or a body that is not JSON
(`ValueError` from `r.json()`). -/
inductive HttpResult
  | ok (data : Json)
  | httpError (e : String)
  | badJson

/-- The network, as a pure oracle from requests to results. -/
def Oracle : Type := Request → HttpResult

def GOOGLE_TEXT_SEARCH_URL : String := "https://places.googleapis.com/v1/places:searchText"

def GOOGLE_NEARBY_SEARCH_URL : String := "https://places.googleapis.com/v1/places:searchNearby"

def OTM_BASE : String := "https://api.opentripmap.com/0.1/en/places"

/-- `_http_json`: issue one call; any transport or JSON-parsing failure
becomes an error whose message names the URL of the failing call. -/
def http_json (o : Oracle) (method url : String)
    (headers : List (String × String)) (params : List (String × ParamV))
    (body : Option Json) : Except String Json :=
  match o ⟨method, url, headers, params, body⟩ with
  | .ok data => .ok data
  | .httpError e => .error ("HTTP error calling " ++ url ++ ": " ++ e)
  | .badJson => .error ("Non-JSON response from " ++ url)

/-- `list(data.get("places", []) or [])`. -/
def jPlaces : Json → List Json
  | .obj kvs =>
    match alGet kvs "places" with
    | some (.arr xs) => xs
    | _ => []
  | _ => []

def google_text_search (o : Oracle) (api_key text_query field_mask : String) :
    Except String (List Json) := do
  let data ← http_json o "POST" GOOGLE_TEXT_SEARCH_URL
    [("Content-Type", "application/json"), ("X-Goog-Api-Key", api_key),
     ("X-Goog-FieldMask", field_mask)]
    [] (some (.obj [("textQuery", .str text_query)]))
  return jPlaces data

def google_nearby_search (o : Oracle) (api_key : String) (lat lon : Rat)
    (radius_m : Int) (included_types : List String) (max_results : Int)
    (field_mask : String) : Except String (List Json) := do
  let data ← http_json o "POST" GOOGLE_NEARBY_SEARCH_URL
    [("Content-Type", "application/json"), ("X-Goog-Api-Key", api_key),
     ("X-Goog-FieldMask", field_mask)]
    []
    (some (.obj
      [("includedTypes", .arr (included_types.map Json.str)),
       ("maxResultCount", .int max_results),
       ("locationRestriction", .obj
         [("circle", .obj
           [("center", .obj [("latitude", .float lat), ("longitude", .float lon)]),
            ("radius", .float (radius_m : Rat))])])]))
  return jPlaces data

def otm_geoname (o : Oracle) (api_key nm : String) : Except String Json :=
  http_json o "GET" (OTM_BASE ++ "/geoname") []
    [("name", .s nm), ("apikey", .s api_key)] none

def otm_radius (o : Oracle) (api_key : String) (lat lon : Rat) (radius_m : Int)
    (kinds : String) (limit : Int) : Except String (List Json) := do
  let params :=
    [("radius", ParamV.i radius_m), ("limit", ParamV.i limit),
     ("offset", ParamV.i 0), ("lon", ParamV.f lon), ("lat", ParamV.f lat),
     ("rate", ParamV.i 2), ("format", ParamV.s "json"),
     ("apikey", ParamV.s api_key)] ++
    (if kinds ≠ "" then [("kinds", ParamV.s kinds)] else [])
  let data ← http_json o "GET" (OTM_BASE ++ "/radius") [] params none
  return (match data with | .arr xs => xs | _ => [])

def otm_xid (o : Oracle) (api_key xid : String) : Except String Json :=
  http_json o "GET" (OTM_BASE ++ "/xid/" ++ xid) [] [("apikey", .s api_key)] none

/-- `_suggestion_from_google_place` (the `bool` rows mirror Python's
`isinstance(True, int)`). -/
def suggestion_from_google_place (p : Json) (category : String) : PlaceSuggestion :=
  { name := strOr (strOr (safe_get_text_field (jGet p "displayName"))
                    (safe_get_text_field (jGet p "name"))) "Unknown"
    address := jGetOrStr (jGet p "formattedAddress") ""
    url := jGetOrStr (jGet p "googleMapsUri") ""
    rating :=
      match jGet p "rating" with
      | some (.int n) => some (n : Rat)
      | some (.float q) => some q
      | some (.bool b) => some (if b then 1 else 0)
      | _ => none
    rating_count :=
      match jGet p "userRatingCount" with
      | some (.int n) => some n
      | some (.bool b) => some (if b then 1 else 0)
      | _ => none
    category := category }

def suggestion_from_otm_details (d : Json) (fallback_name category : String) :
    PlaceSuggestion :=
  let nm := strOr (jGetOrStr (jGet d "name") "") (strOr fallback_name "Unknown")
  let url := strOr (jGetOrStr (jGet d "otm") "") (jGetOrStr (jGet d "wikipedia") "")
  let address :=
    match jGet d "address" with
    | some (.obj a) =>
      ", ".intercalate
        ((([alGet a "road", alGet a "city", alGet a "state", alGet a "country"].filterMap id).filter
          jTruthy).map pyStr)
    | _ => ""
  ⟨nm, address, url, none, none, category⟩

/-- `_dedupe_suggestions`'s loop, the `seen` set as a list of keys. -/
def dedupeAux (seen : List String) : List PlaceSuggestion → List PlaceSuggestion
  | [] => []
  | it :: rest =>
    let key := normalize_text (it.category ++ "::" ++ it.name ++ "::" ++ it.address)
    if key ∉ seen ∧ pyStrip it.name ≠ "" then
      it :: dedupeAux (key :: seen) rest
    else dedupeAux seen rest

def dedupe_suggestions (items : List PlaceSuggestion) : List PlaceSuggestion :=
  dedupeAux [] items

structure QuerySpec where
  google_nearby_types : List String
  google_text : String
  otm_kinds : String

def build_interest_queries (inp : TravelInput) : List (String × QuerySpec) :=
  let d := pyStrip inp.destination
  [("Top attractions",
    ⟨["tourist_attraction", "park"], "top attractions in " ++ d,
     "interesting_places,architecture,cultural,historic"⟩)] ++
  (if Activity.museumsArt ∈ inp.activities then
    [("Museums & art", ⟨["museum", "art_gallery"], "best museums in " ++ d, "museums,cultural"⟩)]
   else []) ++
  (if Activity.nightlife ∈ inp.activities then
    [("Nightlife", ⟨["bar", "night_club"], "best nightlife in " ++ d, "nightlife,foods"⟩)]
   else []) ++
  (if Activity.foodTour ∈ inp.activities then
    [("Food spots", ⟨["restaurant"], "best local restaurants in " ++ d, "foods"⟩)]
   else []) ++
  (if Activity.beach ∈ inp.activities then
    [("Beaches", ⟨[], "best beaches near " ++ d, "natural,beaches"⟩)]
   else []) ++
  (if Activity.hiking ∈ inp.activities then
    [("Hikes & nature", ⟨["park"], "best hikes near " ++ d, "natural"⟩)]
   else []) ++
  [("Taxi services", ⟨[], "taxi service in " ++ d, ""⟩)]

/-- Python `float(x)` on a value read from JSON: raises a `TypeError`
(modelled as an error) on `None` and other non-numeric values. -/
def pyFloat : Option Json → Except String Rat
  | some (.int n) => .ok (n : Rat)
  | some (.float q) => .ok q
  | some (.bool b) => .ok (if b then 1 else 0)
  | _ => .error "TypeError: float() argument must be a number"

/-- The per-section loop of the Google branch. -/
def googleSections (o : Oracle) (api_key field_mask : String) (lat lon : Rat)
    (radius_m max_results : Int) :
    List (String × QuerySpec) → Except String (List (String × List PlaceSuggestion))
  | [] => .ok []
  | (sec, spec) :: rest => do
    let nearby ←
      if spec.google_nearby_types.isEmpty then pure []
      else (google_nearby_search o api_key lat lon radius_m
        spec.google_nearby_types max_results field_mask)
    let fromNearby := nearby.map (fun p => suggestion_from_google_place p sec)
    let text_q := pyStrip spec.google_text
    let fromText ←
      if text_q = "" then pure []
      else do
        let text ← google_text_search o api_key text_q field_mask
        pure ((text.take max_results.toNat).map (fun p => suggestion_from_google_place p sec))
    let restOut ← googleSections o api_key field_mask lat lon radius_m max_results rest
    return (sec, (dedupe_suggestions (fromNearby ++ fromText)).take max_results.toNat) :: restOut

/-- The inner detail-fetch loop of the OpenTripMap branch (hits with no
`xid` are skipped). -/
def otmFetchDetails (o : Oracle) (api_key sec : String) :
    List Json → Except String (List PlaceSuggestion)
  | [] => .ok []
  | h :: t =>
    let xid := jGetOrStr (jGet h "xid") ""
    let fallback_name := jGetOrStr (jGet h "name") ""
    if xid = "" then otmFetchDetails o api_key sec t
    else do
      let details ← otm_xid o api_key xid
      let rest ← otmFetchDetails o api_key sec t
      return suggestion_from_otm_details details fallback_name sec :: rest

/-- The per-section loop of the OpenTripMap branch (`Taxi services` is kept
offline). -/
def otmSections (o : Oracle) (api_key : String) (lat lon : Rat)
    (radius_m max_results : Int) :
    List (String × QuerySpec) → Except String (List (String × List PlaceSuggestion))
  | [] => .ok []
  | (sec, spec) :: rest =>
    if sec = "Taxi services" then do
      let restOut ← otmSections o api_key lat lon radius_m max_results rest
      return (sec, []) :: restOut
    else do
      let hits ← otm_radius o api_key lat lon radius_m spec.otm_kinds max_results
      let suggestions ← otmFetchDetails o api_key sec (hits.take max_results.toNat)
      let restOut ← otmSections o api_key lat lon radius_m max_results rest
      return (sec, (dedupe_suggestions suggestions).take max_results.toNat) :: restOut

/-- `enrich_plan_with_api`: resolves the destination, issues per-section
searches, and only on full success assigns the enriched mapping. -/
def enrich_plan_with_api (o : Oracle) (plan : GeneratedPlan) (inp : TravelInput)
    (provider : Provider) (api_key : String) (radius_km max_results : Int)
    (cost_saver : Bool) : Except String GeneratedPlan :=
  match provider with
  | .offline => .ok plan
  | .googlePlaces =>
    let radius_m := clamp radius_km 1 50 * 1000
    let mr := clamp max_results 3 20
    let queries := build_interest_queries inp
    let d := pyStrip inp.destination
    if pyStrip api_key = "" then .error "Google Places API key is required."
    else
      let field_mask :=
        if cost_saver then "places.displayName,places.formattedAddress,places.googleMapsUri"
        else "places.displayName,places.formattedAddress,places.googleMapsUri,places.rating,places.userRatingCount"
      do
        let loc_places ← google_text_search o api_key d
          "places.displayName,places.formattedAddress,places.location"
        match loc_places with
        | [] => .error "Google Places Text Search returned no results for destination; try a more specific destination string."
        | p0 :: _ =>
          let loc :=
            match jGet p0 "location" with
            | some j => if jTruthy j then j else .obj []
            | none => .obj []
          let lat ← pyFloat (jGet loc "latitude")
          let lon ← pyFloat (jGet loc "longitude")
          let enriched ← googleSections o api_key field_mask lat lon radius_m mr queries
          return { plan with enriched := enriched }
  | .openTripMap =>
    let radius_m := clamp radius_km 1 50 * 1000
    let mr := clamp max_results 3 20
    let queries := build_interest_queries inp
    let d := pyStrip inp.destination
    if pyStrip api_key = "" then .error "OpenTripMap API key is required."
    else do
      let geo ← otm_geoname o api_key d
      if pyStrOpt (jGet geo "status") ≠ "OK" then
        .error "OpenTripMap geoname failed; try a more specific destination string (e.g., \x27Paris, France\x27)."
      else do
        let lat ← pyFloat (jGet geo "lat")
        let lon ← pyFloat (jGet geo "lon")
        let enriched ← otmSections o api_key lat lon radius_m mr queries
        return { plan with enriched := enriched }

/-- The call site: `generate_plan`, then enrichment under `try/except`; an
enrichment error is surfaced as a warning and the offline plan is kept. -/
def applyEnrichment (o : Oracle) (inp : TravelInput) (provider : Provider)
    (api_key : String) (radius_km max_results : Int) (cost_saver : Bool) :
    GeneratedPlan :=
  let plan := generate_plan inp
  match enrich_plan_with_api o plan inp provider api_key radius_km max_results cost_saver with
  | .ok p => p
  | .error _ => plan

/-! ## The generate-button handler (validation) -/

/-- The form fields as submitted. -/
structure FormState where
  departure : String
  destination : String
  start_date : Date
  end_date : Date
  travelers : Int
  trip_style : TripStyle
  accommodation : Accommodation
  luggage : LuggageType
  weather : WeatherFeel
  rain_likelihood : Int
  activities : List Activity
  dietary_notes : String
  mobility_notes : String
  health_notes : String
  budget_notes : String

/-- The generate-button handler: validation runs first, and only a request
that passes both checks is turned into a `TravelInput` and a plan. -/
def run_generate (f : FormState) : Except String GeneratedPlan :=
  if pyStrip f.departure = "" ∨ pyStrip f.destination = "" then
    .error "Please enter both departure and destination."
  else if f.end_date < f.start_date then
    .error "End date must be on/after start date."
  else
    .ok (generate_plan
      { departure := pyStrip f.departure
        destination := pyStrip f.destination
        start_date := f.start_date
        end_date := f.end_date
        travelers := f.travelers
        trip_style := f.trip_style
        accommodation := f.accommodation
        luggage := f.luggage
        weather := f.weather
        rain_likelihood := f.rain_likelihood
        activities := f.activities
        dietary_notes := pyStrip f.dietary_notes
        mobility_notes := pyStrip f.mobility_notes
        health_notes := pyStrip f.health_notes
        budget_notes := pyStrip f.budget_notes })

/-! ## Export -/

/-- A Python value handed to `json.dumps`: the JSON-compatible constructors
plus `datetime.date`, which `json.dumps` cannot serialize. -/
inductive PyVal
  | none
  | str (s : String)
  | int (n : Int)
  | float (q : Rat)
  | bool (b : Bool)
  | date (d : Date)
  | list (xs : List PyVal)
  | dict (kvs : List (String × PyVal))

def jsonQuoteChar (c : Char) : String :=
  if c = '"' then "\\\"" else if c = '\\' then "\\\\" else String.mk [c]

def jsonQuote (s : String) : String :=
  "\"" ++ String.join (s.data.map jsonQuoteChar) ++ "\""

mutual

/-- `json.dumps`: `Option.none` models the `TypeError` raised on a value
(such as a `datetime.date`) that is not JSON serializable. -/
def jsonDumps : PyVal → Option String
  | .none => some "null"
  | .str s => some (jsonQuote s)
  | .int n => some (toString n)
  | .float q => some (toString q)
  | .bool b => some (if b then "true" else "false")
  | .date _ => Option.none
  | .list xs =>
    (jsonDumpsList xs).map (fun parts => "[" ++ ", ".intercalate parts ++ "]")
  | .dict kvs =>
    (jsonDumpsObj kvs).map (fun parts => "\x7b" ++ ", ".intercalate parts ++ "\x7d")

def jsonDumpsList : List PyVal → Option (List String)
  | [] => some []
  | x :: xs => do
    let s ← jsonDumps x
    let rest ← jsonDumpsList xs
    return s :: rest

def jsonDumpsObj : List (String × PyVal) → Option (List String)
  | [] => some []
  | (k, v) :: kvs => do
    let s ← jsonDumps v
    let rest ← jsonDumpsObj kvs
    return (jsonQuote k ++ ": " ++ s) :: rest

end

/-- `dataclasses.asdict` on a `TravelInput`: the two date fields stay
`datetime.date` objects. -/
def asdictTravelInput (inp : TravelInput) : PyVal :=
  .dict
    [("departure", .str inp.departure),
     ("destination", .str inp.destination),
     ("start_date", .date inp.start_date),
     ("end_date", .date inp.end_date),
     ("travelers", .int inp.travelers),
     ("trip_style", .str (tripStyleStr inp.trip_style)),
     ("accommodation", .str (accommodationStr inp.accommodation)),
     ("luggage", .str (luggageStr inp.luggage)),
     ("weather", .str (weatherStr inp.weather)),
     ("rain_likelihood", .int inp.rain_likelihood),
     ("activities", .list (inp.activities.map (fun a => .str (activityStr a)))),
     ("dietary_notes", .str inp.dietary_notes),
     ("mobility_notes", .str inp.mobility_notes),
     ("health_notes", .str inp.health_notes),
     ("budget_notes", .str inp.budget_notes)]

def itemToDict (it : ChecklistItem) : PyVal :=
  .dict [("item", .str it.item), ("why", .str it.why), ("tags", .list (it.tags.map PyVal.str))]

def placeToDict (p : PlaceSuggestion) : PyVal :=
  .dict
    [("name", .str p.name), ("address", .str p.address), ("url", .str p.url),
     ("rating", match p.rating with | some q => .float q | Option.none => .none),
     ("rating_count", match p.rating_count with | some n => .int n | Option.none => .none),
     ("category", .str p.category)]

/-- `_plan_to_jsonable`. -/
def plan_to_jsonable (plan : GeneratedPlan) : PyVal :=
  .dict
    [("packing", .dict (plan.packing.map (fun kv => (kv.1, PyVal.list (kv.2.map itemToDict))))),
     ("health", .dict (plan.health.map (fun kv => (kv.1, PyVal.list (kv.2.map itemToDict))))),
     ("places", .dict (plan.places.map (fun kv => (kv.1, PyVal.list (kv.2.map PyVal.str))))),
     ("transport", .dict (plan.transport.map (fun kv => (kv.1, PyVal.list (kv.2.map PyVal.str))))),
     ("food", .dict (plan.food.map (fun kv => (kv.1, PyVal.list (kv.2.map PyVal.str))))),
     ("enriched", .dict (plan.enriched.map (fun kv => (kv.1, PyVal.list (kv.2.map placeToDict))))),
     ("reminders", .list (plan.reminders.map PyVal.str))]

/-- The JSON blob of the Export tab:
`json.dumps({"input": asdict(inp), "plan": _plan_to_jsonable(plan)}, ...)`. -/
def export_json_blob (inp : TravelInput) (plan : GeneratedPlan) : Option String :=
  jsonDumps (.dict [("input", asdictTravelInput inp), ("plan", plan_to_jsonable plan)])

/-- One `st.download_button` of the Export tab: file name, MIME type, and
whether the expression supplying its data evaluates without raising. -/
structure Download where
  fname : String
  mime : String
  ok : Bool

/-- The downloads the Export tab defines: the Markdown document (whose
rendering always succeeds) and the JSON blob. No other artifact — no CSV
file and no ZIP archive — is produced anywhere in the program. -/
def export_downloads (inp : TravelInput) (plan : GeneratedPlan) : List Download :=
  [⟨"travel_plan.md", "text/markdown", true⟩,
   ⟨"travel_plan.json", "application/json", (export_json_blob inp plan).isSome⟩]

/-! ## Shared lemmas: substrings -/

theorem string_data_append (s t : String) : (s ++ t).data = s.data ++ t.data := by
  cases s; cases t; rfl

theorem startsWith_self_append (n s : List Char) : startsWith n (n ++ s) = true := by
  induction n with
  | nil => rfl
  | cons a n ih => simp [startsWith, ih]

theorem containsSub_nil_left (s : List Char) : containsSub [] s = true := by
  cases s <;> simp [containsSub, startsWith, List.isEmpty]

theorem containsSub_self_append (n s : List Char) : containsSub n (n ++ s) = true := by
  cases n with
  | nil => exact containsSub_nil_left s
  | cons a t =>
    show containsSub (a :: t) ((a :: t) ++ s) = true
    simp only [containsSub, Bool.or_eq_true]
    exact Or.inl (startsWith_self_append (a :: t) s)

theorem containsSub_append (n p s : List Char) :
    containsSub n (p ++ (n ++ s)) = true := by
  induction p with
  | nil => simpa using containsSub_self_append n s
  | cons c p ih => simp [containsSub, ih]

theorem strIn_mid (a u b : String) : strIn u (a ++ u ++ b) = true := by
  show containsSub u.data (a ++ u ++ b).data = true
  rw [string_data_append, string_data_append, List.append_assoc]
  exact containsSub_append u.data a.data b.data

theorem strIn_mid2 (a u b c : String) : strIn u (a ++ u ++ b ++ c) = true := by
  show containsSub u.data (a ++ u ++ b ++ c).data = true
  rw [string_data_append, string_data_append, string_data_append,
    List.append_assoc, List.append_assoc]
  exact containsSub_append u.data a.data _

theorem strIn_after (a u : String) : strIn u (a ++ u) = true := by
  show containsSub u.data (a ++ u).data = true
  rw [string_data_append]
  have h := containsSub_append u.data a.data []
  rwa [List.append_nil] at h

/-! ## Shared lemmas: association lists -/

theorem alGet_map_value {α β : Type} (f : α → β) :
    ∀ (m : List (String × α)) (k : String),
      alGet (m.map (fun kv => (kv.1, f kv.2))) k = (alGet m k).map f := by
  intro m k
  induction m with
  | nil => rfl
  | cons a m ih =>
    by_cases h : a.1 = k <;> simp [alGet, h, ih]

theorem alGet_append_of_none {α : Type} :
    ∀ (m m' : List (String × α)) (k : String), alGet m k = none →
      alGet (m ++ m') k = alGet m' k := by
  intro m m' k h
  induction m with
  | nil => rfl
  | cons a m ih =>
    by_cases ha : a.1 = k
    · simp [alGet, ha] at h
    · simp only [alGet, ha, if_neg ha, List.cons_append] at h ⊢
      rcases a with ⟨k1, v1⟩
      simp only [alGet, if_neg ha] at h ⊢
      exact ih h

theorem alGet_upsertExtend_none {α : Type} (m : List (String × List α))
    (k : String) (v : List α) (h : alGet m k = none) :
    alGet (upsertExtend m k v) k = some v := by
  unfold upsertExtend
  rw [h]
  simp only [Option.isSome_none, Bool.false_eq_true, if_false]
  rw [alGet_append_of_none m _ k h]
  simp [alGet]

theorem alGet_mapExtend_ne {α : Type} (k key : String) (v : List α)
    (h : k ≠ key) :
    ∀ m : List (String × List α),
      alGet (m.map (fun kv => if kv.1 = k then (kv.1, kv.2 ++ v) else kv)) key =
        alGet m key := by
  intro m
  induction m with
  | nil => rfl
  | cons a m ih =>
    rcases a with ⟨k1, v1⟩
    simp only [List.map]
    split
    next h1 =>
      have hk1 : k1 ≠ key := by
        have : k1 = k := h1
        rw [this]; exact h
      simp only [alGet]
      simp [hk1, ih]
    next h1 =>
      simp only [alGet]
      by_cases h2 : k1 = key <;> simp [h2, ih]

theorem alGet_upsertExtend_ne {α : Type} (m : List (String × List α))
    (k key : String) (v : List α) (h : k ≠ key) :
    alGet (upsertExtend m k v) key = alGet m key := by
  unfold upsertExtend
  by_cases hs : (alGet m k).isSome
  · rw [if_pos hs]
    exact alGet_mapExtend_ne k key v h m
  · rw [if_neg hs]
    by_cases hm : (alGet m key).isSome
    · obtain ⟨w, hw⟩ := Option.isSome_iff_exists.mp hm
      clear hs hm
      induction m with
      | nil => simp [alGet] at hw
      | cons a m ih =>
        rcases a with ⟨k1, v1⟩
        by_cases h1 : k1 = key
        · simp [alGet, h1] at hw ⊢
        · simp only [alGet, if_neg h1, List.cons_append] at hw ⊢
          exact ih hw
    · have hnone : alGet m key = none := by
        cases hv : alGet m key
        · rfl
        · rw [hv] at hm; simp at hm
      rw [alGet_append_of_none m _ key hnone, hnone]
      simp [alGet, if_neg h]

theorem alGet_mem_values {α : Type} :
    ∀ (m : List (String × α)) (k : String) (v : α),
      alGet m k = some v → v ∈ m.map Prod.snd := by
  intro m k v h
  induction m with
  | nil => simp [alGet] at h
  | cons a m ih =>
    by_cases ha : a.1 = k
    · simp only [alGet, if_pos ha, Option.some.injEq] at h
      simp [← h]
    · simp only [alGet, if_neg ha] at h
      simp [ih h]

/-! ## Shared lemmas: deduplication -/

/-- The deduplication key of a checklist entry: its normalized item text. -/
def itemKey (it : ChecklistItem) : String := normalize_text it.item

theorem uniqAux_not_seen :
    ∀ (l : List ChecklistItem) (seen : List String) (y : ChecklistItem),
      y ∈ uniqAux seen l → itemKey y ∉ seen := by
  intro l
  induction l with
  | nil => intro seen y hy; simp [uniqAux] at hy
  | cons x xs ih =>
    intro seen y hy
    by_cases hx : normalize_text x.item ∈ seen
    · rw [uniqAux, if_pos hx] at hy
      exact ih seen y hy
    · rw [uniqAux, if_neg hx] at hy
      rcases List.mem_cons.mp hy with rfl | hy'
      · exact hx
      · intro hseen
        exact ih _ y hy' (List.mem_cons_of_mem _ hseen)

theorem uniqAux_sublist :
    ∀ (l : List ChecklistItem) (seen : List String),
      List.Sublist (uniqAux seen l) l := by
  intro l
  induction l with
  | nil => intro seen; simp [uniqAux]
  | cons x xs ih =>
    intro seen
    by_cases hx : normalize_text x.item ∈ seen
    · rw [uniqAux, if_pos hx]
      exact (ih seen).cons x
    · rw [uniqAux, if_neg hx]
      exact (ih _).cons₂ x

theorem uniqAux_nodup_keys :
    ∀ (l : List ChecklistItem) (seen : List String),
      ((uniqAux seen l).map itemKey).Nodup := by
  intro l
  induction l with
  | nil => intro seen; simp [uniqAux]
  | cons x xs ih =>
    intro seen
    by_cases hx : normalize_text x.item ∈ seen
    · rw [uniqAux, if_pos hx]; exact ih seen
    · rw [uniqAux, if_neg hx]
      simp only [List.map, List.nodup_cons]
      refine ⟨?_, ih _⟩
      intro hmem
      obtain ⟨y, hy, hkey⟩ := List.mem_map.mp hmem
      have hns := uniqAux_not_seen xs _ y hy
      exact hns (hkey ▸ List.mem_cons_self _ _)

theorem uniqAux_find :
    ∀ (l : List ChecklistItem) (seen : List String) (y : ChecklistItem),
      y ∈ uniqAux seen l →
        List.find? (fun z => itemKey z == itemKey y) l = some y := by
  intro l
  induction l with
  | nil => intro seen y hy; simp [uniqAux] at hy
  | cons x xs ih =>
    intro seen y hy
    by_cases hx : normalize_text x.item ∈ seen
    · rw [uniqAux, if_pos hx] at hy
      have hns := uniqAux_not_seen xs seen y hy
      have hne : (itemKey x == itemKey y) = false := by
        refine beq_eq_false_iff_ne.mpr ?_
        intro he
        exact hns (he ▸ hx)
      rw [List.find?_cons_of_neg _ (by simp [hne]), ih seen y hy]
    · rw [uniqAux, if_neg hx] at hy
      rcases List.mem_cons.mp hy with rfl | hy'
      · exact List.find?_cons_of_pos _ (by simp)
      · have hns := uniqAux_not_seen xs _ y hy'
        have hne : (itemKey x == itemKey y) = false := by
          refine beq_eq_false_iff_ne.mpr ?_
          intro he
          exact hns (he ▸ List.mem_cons_self _ _)
        rw [List.find?_cons_of_neg _ (by simp [hne]), ih _ y hy']

theorem uniqAux_covers :
    ∀ (l : List ChecklistItem) (seen : List String) (x : ChecklistItem),
      x ∈ l →
        itemKey x ∈ seen ∨ ∃ y ∈ uniqAux seen l, itemKey y = itemKey x := by
  intro l
  induction l with
  | nil => intro seen x hx; simp at hx
  | cons x' xs ih =>
    intro seen x hx
    by_cases hs : normalize_text x'.item ∈ seen
    · rw [uniqAux, if_pos hs]
      rcases List.mem_cons.mp hx with rfl | hx'
      · exact Or.inl hs
      · exact ih seen x hx'
    · rw [uniqAux, if_neg hs]
      rcases List.mem_cons.mp hx with rfl | hx'
      · exact Or.inr ⟨x, List.mem_cons_self _ _, rfl⟩
      · rcases ih (normalize_text x'.item :: seen) x hx' with hmem | ⟨y, hy, hk⟩
        · rcases List.mem_cons.mp hmem with heq | hseen
          · exact Or.inr ⟨x', List.mem_cons_self _ _, heq.symm⟩
          · exact Or.inl hseen
        · exact Or.inr ⟨y, List.mem_cons_of_mem _ hy, hk⟩

theorem uniq_items_nodup_keys (l : List ChecklistItem) :
    ((uniq_items l).map itemKey).Nodup :=
  uniqAux_nodup_keys l []

/-! ## Shared lemmas: the packing dictionary -/

theorem rawPacking_weather_lookup (inp : TravelInput) :
    alGet (rawPacking inp) "Weather add-ons" =
      some (weather_addons inp.weather inp.rain_likelihood) := by
  have hbase : alGet base_packing "Weather add-ons" = none := by decide
  have h1 : alGet (extendAll base_packing
      (weather_module inp.weather inp.rain_likelihood)) "Weather add-ons" =
      some (weather_addons inp.weather inp.rain_likelihood) := by
    simp only [weather_module, extendAll, List.foldl]
    exact alGet_upsertExtend_none _ _ _ hbase
  have h2 : alGet (extendAll (extendAll base_packing
      (weather_module inp.weather inp.rain_likelihood))
      (activity_modules inp.activities
        (trip_length_days inp.start_date inp.end_date) inp.trip_style))
      "Weather add-ons" =
      some (weather_addons inp.weather inp.rain_likelihood) := by
    simp only [activity_modules, extendAll, List.foldl]
    rw [alGet_upsertExtend_ne _ _ _ _ (by decide)]
    simpa [extendAll, weather_module, List.foldl] using h1
  simp only [rawPacking]
  split
  · rw [alGet_upsertExtend_ne _ _ _ _ (by decide)]
    split
    · rw [alGet_upsertExtend_ne _ _ _ _ (by decide)]
      exact h2
    · exact h2
  · split
    · rw [alGet_upsertExtend_ne _ _ _ _ (by decide)]
      exact h2
    · exact h2

theorem generate_plan_weather_lookup (inp : TravelInput) :
    alGet (generate_plan inp).packing "Weather add-ons" =
      some (uniq_items (weather_addons inp.weather inp.rain_likelihood)) := by
  show alGet ((rawPacking inp).map (fun kv => (kv.1, uniq_items kv.2)))
      "Weather add-ons" = _
  rw [alGet_map_value, rawPacking_weather_lookup]
  rfl

/-! ## Shared lemmas: enrichment failures -/

/-- The call did not come back as parsed JSON: a transport error or an
unparseable body. -/
def HttpFails : HttpResult → Prop
  | .ok _ => False
  | .httpError _ => True
  | .badJson => True

/-- The URL of the first call a provider issues. -/
def firstCallUrl : Provider → String
  | .offline => ""
  | .googlePlaces => GOOGLE_TEXT_SEARCH_URL
  | .openTripMap => OTM_BASE ++ "/geoname"

theorem http_json_fail (o : Oracle) (hfail : ∀ req, HttpFails (o req))
    (method url : String) (hs : List (String × String))
    (ps : List (String × ParamV)) (b : Option Json) :
    ∃ msg, http_json o method url hs ps b = .error msg ∧ strIn url msg = true := by
  unfold http_json
  cases hr : o ⟨method, url, hs, ps, b⟩ with
  | ok d =>
    have h := hfail ⟨method, url, hs, ps, b⟩
    rw [hr] at h
    exact h.elim
  | httpError e => exact ⟨_, rfl, strIn_mid2 "HTTP error calling " url ": " e⟩
  | badJson => exact ⟨_, rfl, strIn_after "Non-JSON response from " url⟩

theorem http_json_error_names_url (o : Oracle) (method url : String)
    (hs : List (String × String)) (ps : List (String × ParamV))
    (b : Option Json) (msg : String)
    (h : http_json o method url hs ps b = .error msg) : strIn url msg = true := by
  unfold http_json at h
  cases hr : o ⟨method, url, hs, ps, b⟩ <;> rw [hr] at h
  · exact absurd h (by simp)
  · obtain rfl : _ = msg := (Except.error.injEq _ _).mp h
    exact strIn_mid2 "HTTP error calling " url ": " _
  · obtain rfl : _ = msg := (Except.error.injEq _ _).mp h
    exact strIn_after "Non-JSON response from " url

theorem google_text_search_fail (o : Oracle) (hfail : ∀ req, HttpFails (o req))
    (api_key q mask : String) :
    ∃ msg, google_text_search o api_key q mask = .error msg ∧
      strIn GOOGLE_TEXT_SEARCH_URL msg = true := by
  obtain ⟨msg, hm, hin⟩ := http_json_fail o hfail "POST" GOOGLE_TEXT_SEARCH_URL
    [("Content-Type", "application/json"), ("X-Goog-Api-Key", api_key),
     ("X-Goog-FieldMask", mask)]
    [] (some (.obj [("textQuery", .str q)]))
  refine ⟨msg, ?_, hin⟩
  simp [google_text_search, hm, Bind.bind, Except.bind]

theorem otm_geoname_fail (o : Oracle) (hfail : ∀ req, HttpFails (o req))
    (api_key nm : String) :
    ∃ msg, otm_geoname o api_key nm = .error msg ∧
      strIn (OTM_BASE ++ "/geoname") msg = true := by
  obtain ⟨msg, hm, hin⟩ := http_json_fail o hfail "GET" (OTM_BASE ++ "/geoname")
    [] [("name", .s nm), ("apikey", .s api_key)] none
  exact ⟨msg, hm, hin⟩

/-! ## Shared lemmas: export -/

theorem export_json_blob_none (inp : TravelInput) (plan : GeneratedPlan) :
    export_json_blob inp plan = Option.none := by
  simp [export_json_blob, asdictTravelInput, jsonDumps, jsonDumpsObj,
    Bind.bind, Option.bind]

/-! ## Sample inputs for concrete instances -/

def tokyoSample : TravelInput :=
  { departure := "London, UK"
    destination := "Tokyo, Japan"
    start_date := 739000
    end_date := 739006
    travelers := 2
    trip_style := .midRange
    accommodation := .hotel
    luggage := .carryOnOnly
    weather := .mild
    rain_likelihood := 70
    activities := [.cityExploring, .foodTour]
    dietary_notes := ""
    mobility_notes := ""
    health_notes := ""
    budget_notes := "" }

/-- A submission whose end date falls before its start date. -/
def badForm : FormState :=
  { departure := "London, UK"
    destination := "Tokyo, Japan"
    start_date := 739006
    end_date := 739000
    travelers := 1
    trip_style := .midRange
    accommodation := .hotel
    luggage := .carryOnOnly
    weather := .mild
    rain_likelihood := 30
    activities := [.cityExploring]
    dietary_notes := ""
    mobility_notes := ""
    health_notes := ""
    budget_notes := "" }

/-! ## The claims -/

/-- C1: the spec claims the JSON export serializes the start and end dates
as ISO-8601 strings and succeeds; in the code, `json.dumps` receives the
raw `datetime.date` objects from `asdict(inp)` with no `default=` hook, so
for every input and plan the export raises `TypeError` (modelled as
`Option.none`) instead of producing a document. -/
theorem export_json_raises_on_dates :
    ∀ (inp : TravelInput) (plan : GeneratedPlan),
      export_json_blob inp plan = Option.none := by
  intro inp plan
  exact export_json_blob_none inp plan

/-- C2: in every generated plan, every category of the packing section and
of the health section lists no two entries with equal normalized item
text. -/
theorem generate_plan_no_duplicate_normalized_items :
    ∀ inp : TravelInput,
      List.Forall (fun kv => (kv.2.map itemKey).Nodup)
        (generate_plan inp).packing ∧
      List.Forall (fun kv => (kv.2.map itemKey).Nodup)
        (generate_plan inp).health := by
  intro inp
  constructor
  · rw [List.forall_iff_forall_mem]
    intro kv hkv
    have hp : (generate_plan inp).packing =
        (rawPacking inp).map (fun kv => (kv.1, uniq_items kv.2)) := rfl
    rw [hp] at hkv
    obtain ⟨kv', _, rfl⟩ := List.mem_map.mp hkv
    exact uniq_items_nodup_keys kv'.2
  · rw [List.forall_iff_forall_mem]
    intro kv hkv
    have hh : (generate_plan inp).health =
        health_checklist (infer_region inp.destination) := rfl
    rw [hh] at hkv
    simp only [health_checklist, List.mem_cons, List.not_mem_nil, or_false] at hkv
    rcases hkv with rfl | rfl
    · decide
    · show (((alGet region_prompts (infer_region inp.destination)).getD []).map
        itemKey).Nodup
      rcases hr : alGet region_prompts (infer_region inp.destination) with _ | v
      · simp
      · have hv := alGet_mem_values _ _ _ hr
        simp only [region_prompts, List.map_cons, List.map_nil, List.mem_cons,
          List.not_mem_nil, or_false] at hv
        rcases hv with rfl | rfl | rfl | rfl | rfl <;> decide

/-- C3 (counterexample): the export step does not produce the claimed
five-file ZIP archive — `packing_checklist.csv` is not among the artifacts
the Export tab defines for a concrete generated plan. -/
theorem export_archive_counterexample :
    ("packing_checklist.csv" ∈
      (export_downloads tokyoSample (generate_plan tokyoSample)).map
        Download.fname) = False :=
  eq_false (by decide)

/-- C3 (amended): the export step defines exactly two downloads,
`travel_plan.md` (Markdown) and `travel_plan.json` (JSON) — no CSV files
and no ZIP archive — and the JSON download's data expression fails
(`json.dumps` raises on the date fields). -/
theorem export_downloads_amended :
    ∀ (inp : TravelInput) (plan : GeneratedPlan),
      (export_downloads inp plan).map Download.fname =
        ["travel_plan.md", "travel_plan.json"] ∧
      (export_downloads inp plan).map Download.mime =
        ["text/markdown", "application/json"] ∧
      (export_downloads inp plan).map Download.ok = [true, false] := by
  intro inp plan
  refine ⟨rfl, rfl, ?_⟩
  simp [export_downloads, export_json_blob_none]

/-- C4: region classification is total and deterministic — for every input
string `infer_region` returns exactly one label from the fixed ten-label
set, falling back to `"unknown"`. -/
theorem infer_region_total_fixed_labels :
    ∀ s : String,
      infer_region s ∈
        (["uk_ie", "eu", "us_canada", "latam", "mena", "south_asia",
          "se_asia", "east_asia", "oceania", "unknown"] : List String) := by
  intro s
  simp only [infer_region]
  split_ifs <;> decide

/-- C5: every HTTP or JSON-parsing failure in `_http_json` raises with a
message naming the failing call's URL; when enrichment raises, the caller
keeps the unchanged offline plan; and under a failing network, a non-offline
provider with a key raises immediately with a message naming the URL of its
first call. -/
theorem enrichment_failure_policy :
    ∀ (o : Oracle) (plan : GeneratedPlan) (inp : TravelInput)
      (provider : Provider) (api_key : String) (radius_km max_results : Int)
      (cost_saver : Bool),
      (∀ method url hs ps b msg,
        http_json o method url hs ps b = Except.error msg →
          strIn url msg = true) ∧
      (∀ msg,
        enrich_plan_with_api o (generate_plan inp) inp provider api_key
            radius_km max_results cost_saver = Except.error msg →
          applyEnrichment o inp provider api_key radius_km max_results
            cost_saver = generate_plan inp) ∧
      ((∀ req, HttpFails (o req)) → pyStrip api_key ≠ "" →
        provider ≠ Provider.offline →
          ∃ msg,
            enrich_plan_with_api o plan inp provider api_key radius_km
              max_results cost_saver = Except.error msg ∧
            strIn (firstCallUrl provider) msg = true) := by
  intro o plan inp provider api_key radius_km max_results cost_saver
  refine ⟨?_, ?_, ?_⟩
  · intro method url hs ps b msg h
    exact http_json_error_names_url o method url hs ps b msg h
  · intro msg h
    simp [applyEnrichment, h]
  · intro hfail hkey hprov
    cases provider with
    | offline => exact absurd rfl hprov
    | googlePlaces =>
      obtain ⟨msg, hm, hin⟩ := google_text_search_fail o hfail api_key
        (pyStrip inp.destination)
        "places.displayName,places.formattedAddress,places.location"
      refine ⟨msg, ?_, hin⟩
      simp only [enrich_plan_with_api]
      rw [if_neg hkey]
      simp [hm, Bind.bind, Except.bind]
    | openTripMap =>
      obtain ⟨msg, hm, hin⟩ := otm_geoname_fail o hfail api_key
        (pyStrip inp.destination)
      refine ⟨msg, ?_, hin⟩
      simp only [enrich_plan_with_api]
      rw [if_neg hkey]
      simp [hm, Bind.bind, Except.bind]

/-- C6: a request with a missing departure or destination (empty after
stripping) or with an end date strictly before its start date is rejected
with a user-facing error before any plan generation; no plan is produced. -/
theorem invalid_request_rejected :
    ∀ f : FormState,
      (pyStrip f.departure = "" ∨ pyStrip f.destination = "" ∨
        f.end_date < f.start_date) →
      ∃ msg, run_generate f = Except.error msg := by
  intro f h
  unfold run_generate
  split_ifs with h1 h2
  · exact ⟨_, rfl⟩
  · exact ⟨_, rfl⟩
  · rcases h with hd | hd | hd
    · exact absurd (Or.inl hd) h1
    · exact absurd (Or.inr hd) h1
    · exact absurd hd h2

/-- C6 witness: a concrete submission whose end date precedes its start
date is rejected. -/
theorem invalid_request_rejected_witness :
    (pyStrip badForm.departure = "" ∨ pyStrip badForm.destination = "" ∨
      badForm.end_date < badForm.start_date) ∧
    ∃ msg, run_generate badForm = Except.error msg :=
  ⟨Or.inr (Or.inr (by decide)),
   invalid_request_rejected badForm (Or.inr (Or.inr (by decide)))⟩

/-- C7: with rain likelihood at least 60, whatever the weather feel, the
generated plan's weather category contains the three rain-specific packing
entries. -/
theorem rain_entries_in_weather_category :
    ∀ inp : TravelInput, 60 ≤ inp.rain_likelihood →
      ∃ l, alGet (generate_plan inp).packing "Weather add-ons" = some l ∧
        "Compact umbrella" ∈ l.map ChecklistItem.item ∧
        "Light rain jacket" ∈ l.map ChecklistItem.item ∧
        "Water-resistant shoes (optional)" ∈ l.map ChecklistItem.item := by
  intro inp h
  refine ⟨_, generate_plan_weather_lookup inp, ?_, ?_, ?_⟩ <;>
  · cases hw : inp.weather <;>
    · simp only [weather_addons]
      rw [if_pos h]
      decide

/-- C7 witness: a concrete rainy trip gets all three rain entries. -/
theorem rain_entries_in_weather_category_witness :
    60 ≤ tokyoSample.rain_likelihood ∧
    ∃ l, alGet (generate_plan tokyoSample).packing "Weather add-ons" = some l ∧
      "Compact umbrella" ∈ l.map ChecklistItem.item ∧
      "Light rain jacket" ∈ l.map ChecklistItem.item ∧
      "Water-resistant shoes (optional)" ∈ l.map ChecklistItem.item :=
  ⟨by decide, rain_entries_in_weather_category tokyoSample (by decide)⟩

/-- C8: the destination "Tokyo, Japan" classifies to the east-Asia region,
and the food guide's "Local foods" list is the non-empty Japan entry of the
country food table. -/
theorem tokyo_japan_region_and_food :
    infer_region "Tokyo, Japan" = "east_asia" ∧
    alGet FOOD_STARTERS_BY_COUNTRY "japan" =
      some ["Ramen", "Sushi", "Okonomiyaki", "Tempura", "Kaiseki (if splurging)"] ∧
    alGet (food_guide "Tokyo, Japan" "") "Local foods (starter list)" =
      some ["Ramen", "Sushi", "Okonomiyaki", "Tempura", "Kaiseki (if splurging)"] ∧
    (["Ramen", "Sushi", "Okonomiyaki", "Tempura", "Kaiseki (if splurging)"] :
      List String) ≠ [] :=
  ⟨by decide, by decide, by decide, by decide⟩

/-- C9: `uniq_items` returns the subsequence of its input keeping, for each
normalized item text, exactly its first occurrence, in order: the output is
a sublist, its keys are duplicate-free, every kept entry is the first
occurrence of its key, and every input key is represented. -/
theorem uniq_items_first_occurrence_spec :
    ∀ l : List ChecklistItem,
      List.Sublist (uniq_items l) l ∧
      ((uniq_items l).map itemKey).Nodup ∧
      (∀ y ∈ uniq_items l,
        List.find? (fun z => itemKey z == itemKey y) l = some y) ∧
      (∀ x ∈ l, ∃ y ∈ uniq_items l, itemKey y = itemKey x) := by
  intro l
  refine ⟨uniqAux_sublist l [], uniq_items_nodup_keys l, ?_, ?_⟩
  · intro y hy
    exact uniqAux_find l [] y hy
  · intro x hx
    rcases uniqAux_covers l [] x hx with hmem | h
    · simp at hmem
    · exact h

/-- C10: for every destination and dietary note, the food guide's
"Local foods (starter list)" entry exists and is non-empty — the generic
five-item fallback is used when no country key matches. -/
theorem food_guide_local_foods_nonempty :
    ∀ destination dietary_notes : String,
      ∃ l, alGet (food_guide destination dietary_notes)
        "Local foods (starter list)" = some l ∧ l ≠ [] := by
  intro d n
  simp only [food_guide]
  split
  next h => exact ⟨_, rfl, by decide⟩
  next hne =>
    refine ⟨_, rfl, ?_⟩
    intro heq
    rw [heq] at hne
    exact hne rfl

end TravelBuddi
